import Mathlib

set_option autoImplicit false

/-!
# MagCastPublisher — Layout Decision & Template Composition Core

A shallow embedding, in Lean 4, of the layout-decision engine
(`server/layout-engine.ts`), the template composer
(`server/template-generator.ts` part of `rendering-service.ts`), and the
render-job supervisor (`server/rendering-service.ts`) of the
MagCastPublisher repository, together with theorems checking the
specification's claims (C1–C10) about these components against the
code.

Modelling conventions:
* JavaScript numbers are idealized as exact rationals (`ℚ`), except that
  the non-finite values `NaN` and `±Infinity` — which the code can
  produce by dividing by zero — are modelled explicitly by the `JSNum`
  type with IEEE-754 propagation rules for the operations the code uses.
  All configuration inputs (template-pack rules and variants) are finite
  rationals.
* JavaScript strings are Lean `String`s; the handful of string
  operations the code uses (`split`, `replace`, `trim`, regex scans)
  are re-implemented below as fuel-based structural recursions over
  `List Char` so that every definition evaluates inside the kernel.
  The fuel is always initialized to more than the length of the input,
  which each recursive step shortens by at least one, so the
  out-of-fuel branches are unreachable.
* Thrown exceptions are modelled with `Option`: `none` is a throw.
* `Array.prototype.sort` (ES2019+) is a stable sort; the comparator
  `(a, b) => b.score - a.score` therefore yields the unique stable
  descending-by-score ordering, which the stable insertion sort
  `sortByScoreDesc` below computes.
-/

/-! ## JavaScript numbers -/

/-- A JavaScript number: a finite (idealized, exact) rational, a signed
infinity, or NaN. -/
inductive JSNum where
  | num : ℚ → JSNum
  | inf : Bool → JSNum
  | nan : JSNum
deriving DecidableEq

namespace JSNum

/-- IEEE-754 addition on `JSNum`. -/
def add : JSNum → JSNum → JSNum
  | nan, _ => nan
  | _, nan => nan
  | inf s, inf t => if s = t then inf s else nan
  | inf s, num _ => inf s
  | num _, inf s => inf s
  | num a, num b => num (a + b)

/-- IEEE-754 negation on `JSNum`. -/
def neg : JSNum → JSNum
  | nan => nan
  | inf s => inf (!s)
  | num a => num (-a)

/-- IEEE-754 subtraction on `JSNum`. -/
def sub (a b : JSNum) : JSNum := add a (neg b)

/-- IEEE-754 multiplication on `JSNum`. -/
def mul : JSNum → JSNum → JSNum
  | nan, _ => nan
  | _, nan => nan
  | inf s, inf t => inf (s = t)
  | inf s, num q => if 0 < q then inf s else if q < 0 then inf (!s) else nan
  | num q, inf s => if 0 < q then inf s else if q < 0 then inf (!s) else nan
  | num a, num b => num (a * b)

/-- IEEE-754 division on `JSNum` (zero is `+0`, as in the source, so
`x / 0` is `+∞` for positive `x`, `-∞` for negative `x`, `NaN` for
`x = 0`). -/
def div : JSNum → JSNum → JSNum
  | nan, _ => nan
  | _, nan => nan
  | inf _, inf _ => nan
  | inf s, num q => if q < 0 then inf (!s) else inf s
  | num _, inf _ => num 0
  | num a, num b =>
      if b = 0 then (if a = 0 then nan else if 0 < a then inf true else inf false)
      else num (a / b)

/-- JavaScript `<` (false whenever an operand is NaN). -/
def ltb : JSNum → JSNum → Bool
  | nan, _ => false
  | _, nan => false
  | num a, num b => a < b
  | num _, inf s => s
  | inf s, num _ => !s
  | inf s, inf t => !s && t

/-- JavaScript `<=` (false whenever an operand is NaN). -/
def leb : JSNum → JSNum → Bool
  | nan, _ => false
  | _, nan => false
  | num a, num b => a ≤ b
  | num _, inf s => s
  | inf s, num _ => !s
  | inf s, inf t => !s || t

/-- Source `Math.max` (NaN-propagating). -/
def jmax (a b : JSNum) : JSNum :=
  match a, b with
  | nan, _ => nan
  | _, nan => nan
  | _, _ => if leb a b then b else a

/-- Source `Math.min` (NaN-propagating). -/
def jmin (a b : JSNum) : JSNum :=
  match a, b with
  | nan, _ => nan
  | _, nan => nan
  | _, _ => if leb a b then a else b

/-- Source `Math.round` — rounds half toward `+∞`, i.e. `⌊x + 1/2⌋`. -/
def round : JSNum → JSNum
  | nan => nan
  | inf s => inf s
  | num a => num ((⌊a + 1/2⌋ : ℤ) : ℚ)

/-- Source `Math.ceil`. -/
def ceil : JSNum → JSNum
  | nan => nan
  | inf s => inf s
  | num a => num ((⌈a⌉ : ℤ) : ℚ)

/-- Whether a `JSNum` is a finite number. -/
def isFiniteNum : JSNum → Bool
  | num _ => true
  | _ => false

end JSNum

/-! ## JavaScript string primitives

Fuel-based re-implementations (over `List Char`) of the string
operations the source uses, so that all of them reduce in the kernel.
-/

/-- The whitespace class used by the source's `\s` regexes, restricted
to the ASCII whitespace that can occur in the inputs considered here. -/
def jsIsWs (c : Char) : Bool :=
  c = ' ' || c = '\t' || c = '\n' || c = '\r'

/-- Core loop of `String.prototype.split` with a literal non-empty
separator: left-to-right, non-overlapping matches, empty pieces kept. -/
def jsSplitGo (sep : List Char) : ℕ → List Char → List Char → List (List Char)
  | 0, l, cur => [cur.reverse ++ l]
  | _ + 1, [], cur => [cur.reverse]
  | fuel + 1, c :: cs, cur =>
      if sep.isPrefixOf (c :: cs) then
        cur.reverse :: jsSplitGo sep fuel (List.drop sep.length (c :: cs)) []
      else
        jsSplitGo sep fuel cs (c :: cur)

/-- Source `s.split(sep)` for a literal non-empty separator. -/
def jsSplitOn (sep s : String) : List String :=
  (jsSplitGo sep.data (s.data.length + 1) s.data []).map (fun l => ⟨l⟩)

/-- Core loop splitting on maximal runs of characters satisfying `p`
(the semantics of `s.split(/X+/)` for a character class `X`): a leading
run yields a leading empty piece, a trailing run a trailing one. -/
def jsSplitRunsGo (p : Char → Bool) : ℕ → List Char → List Char → List (List Char)
  | 0, l, cur => [cur.reverse ++ l]
  | _ + 1, [], cur => [cur.reverse]
  | fuel + 1, c :: cs, cur =>
      if p c then cur.reverse :: jsSplitRunsGo p fuel (cs.dropWhile p) []
      else jsSplitRunsGo p fuel cs (c :: cur)

/-- Source `s.split(/X+/)` for a character class given by `p`. -/
def jsSplitRuns (p : Char → Bool) (s : String) : List String :=
  (jsSplitRunsGo p (s.data.length + 1) s.data []).map (fun l => ⟨l⟩)

/-- Core loop of `.replace(/\s+/g, ' ')`: collapse each maximal
whitespace run to a single space. -/
def jsCollapseWsGo : ℕ → List Char → List Char
  | 0, l => l
  | _ + 1, [] => []
  | fuel + 1, c :: cs =>
      if jsIsWs c then ' ' :: jsCollapseWsGo fuel (cs.dropWhile jsIsWs)
      else c :: jsCollapseWsGo fuel cs

/-- Source `s.replace(/\s+/g, ' ')`. -/
def jsCollapseWs (s : String) : String := ⟨jsCollapseWsGo (s.data.length + 1) s.data⟩

/-- Source `s.trim()`. -/
def jsTrim (s : String) : String :=
  ⟨((s.data.dropWhile jsIsWs).reverse.dropWhile jsIsWs).reverse⟩

/-- Core loop of `.replace(/<[^>]*>/g, ' ')`: a `<` followed (possibly
after other characters, none of them `>`) by a `>` is a match and is
replaced by one space; a `<` with no later `>` matches nothing. -/
def jsStripTagsGo : ℕ → List Char → List Char
  | 0, l => l
  | _ + 1, [] => []
  | fuel + 1, c :: cs =>
      if c = '<' then
        match cs.dropWhile (fun d => d ≠ '>') with
        | [] => c :: cs
        | _ :: rest => ' ' :: jsStripTagsGo fuel rest
      else c :: jsStripTagsGo fuel cs

/-- Source `s.replace(/<[^>]*>/g, ' ')`. -/
def jsStripTags (s : String) : String := ⟨jsStripTagsGo (s.data.length + 1) s.data⟩

/-- Number of matches of `/<\/p>/i` in a left-to-right scan, i.e.
`s.split(/<\/p>/i).length - 1`. -/
def countPClose : List Char → ℕ
  | '<' :: '/' :: p :: '>' :: rest =>
      if p = 'p' ∨ p = 'P' then countPClose rest + 1
      else countPClose ('/' :: p :: '>' :: rest)
  | _ :: rest => countPClose rest
  | [] => 0

/-- Try to match the regex `<\/?p[^>]*>` (case-insensitive) at the head
of the list; on success return the remainder after the match. -/
def matchPTag : List Char → Option (List Char)
  | '<' :: rest =>
      let rest1 := match rest with
        | '/' :: r => r
        | r => r
      match rest1 with
      | p :: r2 =>
          if p = 'p' ∨ p = 'P' then
            match r2.dropWhile (fun d => d ≠ '>') with
            | [] => none
            | _ :: r3 => some r3
          else none
      | [] => none
  | _ => none

/-- Core loop of `s.split(/<\/?p[^>]*>/gi)`. -/
def jsSplitPTagsGo : ℕ → List Char → List Char → List (List Char)
  | 0, l, cur => [cur.reverse ++ l]
  | _ + 1, [], cur => [cur.reverse]
  | fuel + 1, c :: cs, cur =>
      match matchPTag (c :: cs) with
      | some rest => cur.reverse :: jsSplitPTagsGo fuel rest []
      | none => jsSplitPTagsGo fuel cs (c :: cur)

/-- Source `s.split(/<\/?p[^>]*>/gi)`. -/
def jsSplitPTags (s : String) : List String :=
  (jsSplitPTagsGo (s.data.length + 1) s.data []).map (fun l => ⟨l⟩)

/-- Decimal rendering of a rational whose denominator divides a power
of ten, `num/den` rendering otherwise.  Stands in for JavaScript's
number-to-string conversion; no property proved below depends on the
digits produced here. -/
def ratRepr (q : ℚ) : String :=
  if q.den = 1 then toString q.num
  else
    match (List.range 21).find? (fun k => q.den ∣ 10 ^ k) with
    | some k =>
        let scaled : ℤ := q.num * ((10 ^ k : ℕ) / q.den : ℕ)
        let digits := toString scaled.natAbs
        let digits := if digits.length ≤ k then
            String.mk (List.replicate (k + 1 - digits.length) '0') ++ digits
          else digits
        let whole := digits.data.take (digits.length - k)
        let frac := digits.data.drop (digits.length - k)
        (if scaled < 0 then "-" else "") ++ String.mk whole ++ "." ++ String.mk frac
    | none => toString q.num ++ "/" ++ toString q.den

/-- Rendering of a `JSNum`, matching JavaScript for the non-finite
values. -/
def jsNumRepr : JSNum → String
  | JSNum.num q => ratRepr q
  | JSNum.inf true => "Infinity"
  | JSNum.inf false => "-Infinity"
  | JSNum.nan => "NaN"

/-! ## Data model (`shared/schema.ts`) -/

/-- An article row (`shared/schema.ts`, table `articles`); only the
fields the core reads are modelled. -/
structure Article where
  id : String
  issueId : String
  articleId : String
  /-- The source field is named `section` (a Lean keyword). -/
  sectionName : String
  title : String
  dek : Option String
  author : String
  bodyHtml : String
deriving DecidableEq

/-- An image row (`shared/schema.ts`, table `images`); only the fields
the core reads are modelled. -/
structure Image where
  id : String
  articleId : String
  src : String
  role : String
  caption : Option String
  credit : Option String
  focalPoint : Option String
deriving DecidableEq

/-- An issue row (`shared/schema.ts`, table `issues`); only the fields
the composer reads are modelled. -/
structure Issue where
  id : String
  title : String
  issueId : String
  date : String
deriving DecidableEq

/-! ## Layout engine (`server/layout-engine.ts`) -/

/-- Source `LayoutVariant.hero`. -/
structure HeroCfg where
  min_vh : ℚ
  max_vh : ℚ
deriving DecidableEq

/-- Source `LayoutVariant.body` (`leading` is the `[lo, hi]` pair). -/
structure BodyCfg where
  font_min : ℚ
  font_max : ℚ
  leading : ℚ × ℚ
deriving DecidableEq

/-- Source `LayoutVariant.pullquote`. -/
structure PullquoteCfg where
  allow : Bool
  min_paragraph : ℚ
deriving DecidableEq

/-- Source `LayoutVariant`. -/
structure LayoutVariant where
  id : String
  columns : ℚ
  hero : Option HeroCfg
  body : Option BodyCfg
  pullquote : Option PullquoteCfg
deriving DecidableEq

/-- Source `LayoutRules.typography`. -/
structure TypographyRules where
  font_min : ℚ
  font_max : ℚ
  line_height_min : ℚ
  line_height_max : ℚ
deriving DecidableEq

/-- Source `LayoutRules.layout`. -/
structure LayoutLayoutRules where
  max_columns : ℚ
  min_text_length : ℚ
  max_text_length : ℚ
deriving DecidableEq

/-- Source `LayoutRules.images`. -/
structure ImageRules where
  hero_required_words : ℚ
  max_images_per_column : ℚ
deriving DecidableEq

/-- Source `LayoutRules`. -/
structure LayoutRules where
  typography : TypographyRules
  layout : LayoutLayoutRules
  images : ImageRules
deriving DecidableEq

/-- The `defaultRules` literal of `LayoutEngine.parseRules`. -/
def defaultRules : LayoutRules :=
  { typography :=
      { font_min := 19 / 2
        font_max := 21 / 2
        line_height_min := 27 / 20
        line_height_max := 3 / 2 }
    layout :=
      { max_columns := 3
        min_text_length := 100
        max_text_length := 2000 }
    images :=
      { hero_required_words := 200
        max_images_per_column := 2 } }

/-- Source `LayoutDecision`.  `fontSize` is always a finite number (proved
below), so it is carried as a rational; `lineHeight` can be non-finite
(division by zero in `optimizeTypography`), so it is a `JSNum`. -/
structure LayoutDecision where
  variant : LayoutVariant
  fontSize : ℚ
  lineHeight : JSNum
  heroHeight : Option ℚ
  columnCount : ℚ
  score : ℤ
  warnings : List String
deriving DecidableEq

/-- Source `ArticleMetrics`. -/
structure ArticleMetrics where
  wordCount : ℕ
  paragraphCount : ℕ
  characterCount : ℕ
  heroImage : Option Image
  inlineImages : List Image
  hasLongParagraphs : Bool
  estimatedLines : ℕ
deriving DecidableEq

namespace LayoutEngine

/-- Source `LayoutEngine.stripHtml`: strip tags, collapse whitespace, trim. -/
def stripHtml (html : String) : String :=
  jsTrim (jsCollapseWs (jsStripTags html))

/-- Source `LayoutEngine.analyzeArticle`. -/
def analyzeArticle (article : Article) (images : List Image) : ArticleMetrics :=
  let text := stripHtml article.bodyHtml
  let words := (jsSplitRuns jsIsWs text).filter (fun w => w.length > 0)
  let paragraphs := countPClose article.bodyHtml.data
  let heroImage := images.find? (fun img => img.role = "hero")
  let inlineImages := images.filter (fun img => img.role = "inline")
  let avgWordsPerLine := 10
  let estimatedLines := (words.length + avgWordsPerLine - 1) / avgWordsPerLine
  let paragraphTexts := (jsSplitPTags article.bodyHtml).filter (fun p => jsTrim p ≠ "")
  let hasLongParagraphs := paragraphTexts.any (fun p =>
    100 < (jsSplitRuns jsIsWs (stripHtml p)).length)
  { wordCount := words.length
    paragraphCount := paragraphs
    characterCount := text.length
    heroImage := heroImage
    inlineImages := inlineImages
    hasLongParagraphs := hasLongParagraphs
    estimatedLines := estimatedLines }

/-- Source `LayoutEngine.calculateOptimalColumns`. -/
def calculateOptimalColumns (metrics : ArticleMetrics) : ℕ :=
  if metrics.wordCount < 200 then 1
  else if metrics.wordCount < 500 then 2
  else 3

/-- The `x || y` idiom the source applies to optional numeric
configuration fields: the default is used when the field is absent or
`0` (falsy). -/
def orDefault (x : Option ℚ) (d : ℚ) : ℚ :=
  match x with
  | none => d
  | some v => if v = 0 then d else v

/-- Source `Math.round(x * 10) / 10` on a finite number. -/
def roundTo1 (q : ℚ) : ℚ := ((⌊q * 10 + 1/2⌋ : ℤ) : ℚ) / 10

/-- The effective lower font bound of `optimizeTypography`
(`variant.body?.font_min || rules.typography.font_min`). -/
def effFontMin (rules : LayoutRules) (variant : LayoutVariant) : ℚ :=
  orDefault (variant.body.map (fun b => b.font_min)) rules.typography.font_min

/-- The effective upper font bound of `optimizeTypography`
(`variant.body?.font_max || rules.typography.font_max`). -/
def effFontMax (rules : LayoutRules) (variant : LayoutVariant) : ℚ :=
  orDefault (variant.body.map (fun b => b.font_max)) rules.typography.font_max

/-- The effective lower leading bound of `optimizeTypography`
(`variant.body?.leading?.[0] || rules.typography.line_height_min`). -/
def effLeadingLo (rules : LayoutRules) (variant : LayoutVariant) : ℚ :=
  orDefault (variant.body.map (fun b => b.leading.1)) rules.typography.line_height_min

/-- The effective upper leading bound of `optimizeTypography`
(`variant.body?.leading?.[1] || rules.typography.line_height_max`). -/
def effLeadingHi (rules : LayoutRules) (variant : LayoutVariant) : ℚ :=
  orDefault (variant.body.map (fun b => b.leading.2)) rules.typography.line_height_max

/-- The font-size computation of `optimizeTypography` before the final
rounding: scale by text length, then adjust for narrow columns.  All
operations stay within finite numbers. -/
def rawFontSize (rules : LayoutRules) (metrics : ArticleMetrics)
    (variant : LayoutVariant) : ℚ :=
  let baseFont := effFontMin rules variant
  let maxFont := effFontMax rules variant
  let fontSize :=
    if metrics.wordCount < 300 then min maxFont (baseFont + 1/2)
    else if 800 < metrics.wordCount then max baseFont (maxFont - 3/10)
    else baseFont + 1/5
  if (2 : ℚ) < variant.columns then max baseFont (fontSize - 1/5) else fontSize

/-- Source `Math.round(x * 100) / 100` on a finite number. -/
def roundTo2 (q : ℚ) : ℚ := ((⌊q * 100 + 1/2⌋ : ℤ) : ℚ) / 100

/-- Source `LayoutEngine.optimizeTypography`.  The line-height
computation divides by `maxFont - baseFont` and is therefore carried
out in `JSNum`; the font size stays finite and is carried as a
rational. -/
def optimizeTypography (rules : LayoutRules) (metrics : ArticleMetrics)
    (variant : LayoutVariant) : ℚ × JSNum :=
  let baseFont := effFontMin rules variant
  let maxFont := effFontMax rules variant
  let baseLineHeight := effLeadingLo rules variant
  let maxLineHeight := effLeadingHi rules variant
  let fontSize := rawFontSize rules metrics variant
  let lineHeightRatio :=
    JSNum.div (JSNum.num (fontSize - baseFont)) (JSNum.num (maxFont - baseFont))
  let lineHeight :=
    JSNum.add (JSNum.num baseLineHeight)
      (JSNum.mul (JSNum.num (maxLineHeight - baseLineHeight)) lineHeightRatio)
  (roundTo1 fontSize,
   JSNum.div (JSNum.round (JSNum.mul lineHeight (JSNum.num 100))) (JSNum.num 100))

/-- Source `LayoutEngine.estimateTextHeight`. -/
def estimateTextHeight (metrics : ArticleMetrics) (fontSize : ℚ)
    (lineHeight : JSNum) (columns : ℚ) : JSNum :=
  let lineHeightPx := JSNum.mul (JSNum.mul (JSNum.num fontSize) lineHeight) (JSNum.num (133/100))
  let totalLines : ℚ := metrics.estimatedLines
  let linesPerColumn := JSNum.ceil (JSNum.div (JSNum.num totalLines) (JSNum.num columns))
  JSNum.mul linesPerColumn lineHeightPx

/-- Source `LayoutEngine.evaluateVariant`.  The source starts from
`score = 100` and mutates the score and the warnings array inside a
sequence of independent `if` blocks; those sequential mutations are
rendered here additively (the adjustment of each block is summed, and
the warning lists of the blocks are concatenated, in the source's
order), which is the same function.  `article` is received but (as in
the source) not read. -/
def evaluateVariant (rules : LayoutRules) (variant : LayoutVariant)
    (metrics : ArticleMetrics) (_article : Article) : LayoutDecision :=
  let optimalColumns := calculateOptimalColumns metrics
  let tooMany := (optimalColumns : ℚ) < variant.columns
  let heroHeight : Option ℚ :=
    match variant.hero, metrics.heroImage with
    | some h, some _ =>
        if rules.images.hero_required_words ≤ (metrics.wordCount : ℚ) then some h.max_vh
        else some h.min_vh
    | _, _ => none
  let heroAdj : ℤ :=
    match variant.hero, metrics.heroImage with
    | some _, some _ =>
        if rules.images.hero_required_words ≤ (metrics.wordCount : ℚ) then 10 else -5
    | some _, none =>
        if rules.images.hero_required_words < (metrics.wordCount : ℚ) then -20 else 0
    | none, _ => 0
  let heroWarnings : List String :=
    match variant.hero, metrics.heroImage with
    | some _, none =>
        if rules.images.hero_required_words < (metrics.wordCount : ℚ) then
          ["Long article would benefit from hero image"]
        else []
    | _, _ => []
  let ft := optimizeTypography rules metrics variant
  let fontSize := ft.1
  let lineHeight := ft.2
  let atFloor := fontSize ≤ rules.typography.font_min
  let atCeiling := rules.typography.font_max ≤ fontSize
  let estimatedHeight := estimateTextHeight metrics fontSize lineHeight variant.columns
  let overflow := JSNum.ltb (JSNum.num 1000) estimatedHeight
  let tooManyImages :=
    variant.columns * rules.images.max_images_per_column < (metrics.inlineImages.length : ℚ)
  let narrowLong := metrics.hasLongParagraphs ∧ (2 : ℚ) < variant.columns
  let pullquoteOk : Bool :=
    match variant.pullquote with
    | some pq =>
        pq.allow && decide (orDefault (some pq.min_paragraph) 3 ≤ (metrics.paragraphCount : ℚ))
    | none => false
  let score : ℤ :=
    100 - (if tooMany then 15 else 0) + heroAdj -
      (if atFloor then 25 else 0) - (if atCeiling then 10 else 0) -
      (if overflow then 30 else 0) - (if tooManyImages then 15 else 0) -
      (if narrowLong then 10 else 0) + (if pullquoteOk then 5 else 0)
  let warnings : List String :=
    (if tooMany then
        [ratRepr variant.columns ++ " columns may be too many for " ++
          toString metrics.wordCount ++ " words"]
      else []) ++ heroWarnings ++
    (if atFloor then ["Font size at minimum limit"] else []) ++
    (if atCeiling then ["Font size at maximum limit"] else []) ++
    (if overflow then ["Text may overflow page boundaries"] else []) ++
    (if tooManyImages then ["Too many images for column layout"] else []) ++
    (if narrowLong then ["Long paragraphs in narrow columns may affect readability"] else [])
  { variant := variant
    fontSize := fontSize
    lineHeight := lineHeight
    heroHeight := heroHeight
    columnCount := variant.columns
    score := max 0 score
    warnings := warnings }

/-- Stable insertion step of the descending sort
`decisions.sort((a, b) => b.score - a.score)`: the inserted decision
comes from an earlier position in `variants` than every element of the
list it is inserted into, so on equal scores it goes first. -/
def insertByScoreDesc (d : LayoutDecision) : List LayoutDecision → List LayoutDecision
  | [] => [d]
  | e :: es => if e.score ≤ d.score then d :: e :: es else e :: insertByScoreDesc d es

/-- Stable descending-by-score sort; as stable sorting against a fixed
key is unique, this agrees with the ES2019+ `Array.prototype.sort` call
in `decideLayout`. -/
def sortByScoreDesc : List LayoutDecision → List LayoutDecision
  | [] => []
  | d :: ds => insertByScoreDesc d (sortByScoreDesc ds)

/-- Source `LayoutEngine.getFallbackDecision`.  The source dereferences
`variant.columns`; when `decideLayout` reaches this with an empty
variants list the argument is `undefined` and the dereference throws a
`TypeError` — modelled by `none`. -/
def getFallbackDecision (rules : LayoutRules) (variant : Option LayoutVariant)
    (_metrics : ArticleMetrics) : Option LayoutDecision :=
  match variant with
  | none => none
  | some v =>
      some { variant := v
             fontSize := rules.typography.font_min
             lineHeight := JSNum.num rules.typography.line_height_min
             heroHeight := none
             columnCount := min 2 v.columns
             score := 50
             warnings := ["Using fallback layout decision"] }

/-- Source `LayoutEngine.decideLayout`: evaluate every variant, sort the
candidates by descending score (stable), return the first; with no
candidates, fall back — which throws (see `getFallbackDecision`). -/
def decideLayout (rules : LayoutRules) (article : Article) (images : List Image)
    (variants : List LayoutVariant) : Option LayoutDecision :=
  let metrics := analyzeArticle article images
  let decisions := variants.map (fun v => evaluateVariant rules v metrics article)
  match sortByScoreDesc decisions with
  | d :: _ => some d
  | [] => getFallbackDecision rules variants.head? metrics

/-- Source `Math.round` to an integer, on a finite number. -/
def jsRoundInt (q : ℚ) : ℤ := ⌊q + 1/2⌋

/-- Source `LayoutEngine.generateLayoutCSS`.  The braces of the CSS text
are written `\x7b`/`\x7d`; the second parameter mirrors the unused
`article` parameter of the source. -/
def generateLayoutCSS (decision : LayoutDecision) (_article : Article) : String :=
  let fontSize := decision.fontSize
  let css :=
    "\n.article-content \x7b\n  font-size: " ++ ratRepr fontSize ++
    "pt;\n  line-height: " ++ jsNumRepr decision.lineHeight ++
    ";\n  column-count: " ++ ratRepr decision.columnCount ++
    ";\n  column-gap: 24px;\n  column-fill: balance;\n  orphans: 2;\n  widows: 2;\n  hyphens: auto;\n\x7d\n\n.article-title \x7b\n  font-size: " ++
    toString (jsRoundInt (fontSize * (14/5))) ++
    "pt;\n  line-height: 1.2;\n  margin-bottom: 12pt;\n  column-span: all;\n  break-after: avoid;\n\x7d\n\n.article-dek \x7b\n  font-size: " ++
    toString (jsRoundInt (fontSize * (6/5))) ++
    "pt;\n  line-height: 1.4;\n  margin-bottom: 18pt;\n  column-span: all;\n  font-weight: 500;\n  break-after: avoid;\n\x7d\n\n.article-author \x7b\n  font-size: " ++
    toString (jsRoundInt (fontSize * (9/10))) ++
    "pt;\n  margin-bottom: 24pt;\n  column-span: all;\n  text-transform: uppercase;\n  letter-spacing: 0.5px;\n  break-after: avoid;\n\x7d\n\n.article-body p \x7b\n  margin-bottom: " ++
    toString (jsRoundInt (fontSize * (4/5))) ++
    "pt;\n  break-inside: avoid-column;\n\x7d\n\n.article-body p:first-child::first-letter \x7b\n  font-size: " ++
    toString (jsRoundInt (fontSize * (7/2))) ++
    "pt;\n  line-height: 1;\n  float: left;\n  margin: 0 8pt 0 0;\n  font-weight: bold;\n\x7d\n"
  let css :=
    match decision.heroHeight with
    | some h =>
        if h = 0 then css else
        css ++ "\n.hero-image \x7b\n  width: 100%;\n  height: " ++ ratRepr h ++
        "vh;\n  object-fit: cover;\n  margin-bottom: 24pt;\n  column-span: all;\n  break-after: avoid;\n\x7d\n"
    | none => css
  let css :=
    if (decision.variant.pullquote.map (fun pq => pq.allow)).getD false then
      css ++ "\n.pullquote \x7b\n  font-size: " ++
      toString (jsRoundInt (fontSize * (7/5))) ++
      "pt;\n  line-height: 1.3;\n  font-weight: bold;\n  margin: 18pt 0;\n  padding: 12pt 0;\n  border-top: 2px solid #333;\n  border-bottom: 2px solid #333;\n  column-span: " ++
      (if (2 : ℚ) < decision.columnCount then "2" else "all") ++
      ";\n  break-inside: avoid;\n\x7d\n"
    else css
  css ++ "\n.inline-image \x7b\n  width: 100%;\n  margin: 12pt 0;\n  break-inside: avoid;\n\x7d\n\n.image-caption \x7b\n  font-size: " ++
  toString (jsRoundInt (fontSize * (17/20))) ++
  "pt;\n  line-height: 1.3;\n  margin-top: 6pt;\n  font-style: italic;\n  color: #666;\n\x7d\n\n.image-credit \x7b\n  font-size: " ++
  toString (jsRoundInt (fontSize * (3/4))) ++
  "pt;\n  color: #999;\n  margin-top: 3pt;\n\x7d\n"

end LayoutEngine

/-! ## Template generator (`server/template-generator.ts`,
concatenated into `rendering-service.ts` in this repository) -/

/-- In-place update of one list element, as the source's
`paragraphs[i] += x` array mutation; out-of-range indices leave the
list unchanged. -/
def listModify {α : Type} (l : List α) (i : ℕ) (f : α → α) : List α :=
  match l, i with
  | [], _ => []
  | a :: as, 0 => f a :: as
  | a :: as, n + 1 => a :: listModify as n f

/-- Concatenation of a list of strings, in order (used to state how the
composer accumulates per-article markup). -/
def strConcat (l : List String) : String :=
  match l with
  | [] => ""
  | s :: rest => s ++ strConcat rest

/-- A template pack after parsing: name, version, the parsed `variants`
array and the rule set produced by `LayoutEngine.parseRules`. -/
structure TemplatePack where
  name : String
  version : String
  variants : List LayoutVariant
  rules : LayoutRules

/-- Metadata of a generated template. -/
structure TemplateMetadata where
  pageCount : ℕ
  layoutDecisions : List LayoutDecision
  warnings : List String

/-- Source `GeneratedTemplate`. -/
structure GeneratedTemplate where
  html : String
  css : String
  metadata : TemplateMetadata

namespace TemplateGenerator

open LayoutEngine

/-- One character of `TemplateGenerator.escapeHtml`.  The source runs
five sequential global single-character replaces (`&`, `<`, `>`, `"`,
`'` in that order); since no replacement string contains a character
replaced by a later pass, that equals this single character-map pass. -/
def escapeHtmlChar (c : Char) : List Char :=
  if c = '&' then ("&amp;").data
  else if c = '<' then ("&lt;").data
  else if c = '>' then ("&gt;").data
  else if c = '"' then ("&quot;").data
  else if c = '\'' then ("&#39;").data
  else [c]

/-- Source `TemplateGenerator.escapeHtml`. -/
def escapeHtml (text : String) : String :=
  ⟨List.flatten (text.data.map escapeHtmlChar)⟩

/-- The `x || 'd'` idiom on optional strings: the default is used when
the field is absent or the empty string (falsy). -/
def strOr (x : Option String) (d : String) : String :=
  match x with
  | none => d
  | some v => if v = "" then d else v

/-- Source `TemplateGenerator.calculateImagePositions`. -/
def calculateImagePositions (paragraphCount imageCount : ℕ) : List ℕ :=
  let spacing := paragraphCount / (imageCount + 1)
  (List.range imageCount).map (fun i => spacing * (i + 1))

/-- The inline-image figure markup built inside
`TemplateGenerator.generateArticleHtml`. -/
def inlineImageHtml (image : Image) : String :=
  "\n<div class=\"inline-image-container\">\n  <img src=\"" ++ escapeHtml image.src ++
  "\"\n       alt=\"" ++ escapeHtml (image.caption.getD "") ++
  "\"\n       class=\"article-image inline-image\">\n  " ++
  (match image.caption with
   | some c => if c = "" then "" else
       "<div class=\"image-caption\">" ++ escapeHtml c ++ "</div>"
   | none => "") ++ "\n  " ++
  (match image.credit with
   | some c => if c = "" then "" else
       "<div class=\"image-credit\">" ++ escapeHtml c ++ "</div>"
   | none => "") ++ "\n</div>\n"

/-- The inline-image insertion block of
`TemplateGenerator.generateArticleHtml`: split the body at `</p>`,
append each figure to the paragraph piece at its computed position
(positions out of range are skipped), re-join with `</p>`. -/
def insertInlineImages (bodyHtml : String) (inlineImages : List Image) : String :=
  if 0 < inlineImages.length then
    let paragraphs := jsSplitOn ("</p>") bodyHtml
    let insertPositions := calculateImagePositions paragraphs.length inlineImages.length
    let paragraphs :=
      (insertPositions.zip inlineImages).foldl
        (fun ps pi =>
          if pi.1 < ps.length then listModify ps pi.1 (fun s => s ++ inlineImageHtml pi.2)
          else ps)
        paragraphs
    String.intercalate ("</p>") paragraphs
  else bodyHtml

/-- Source `TemplateGenerator.extractPullquote`. -/
def extractPullquote (html : String) : Option String :=
  let text := stripHtml html
  let sentences :=
    (jsSplitRuns (fun c => c = '.' || c = '!' || c = '?') text).filter
      (fun s => 40 < (jsTrim s).length ∧ (jsTrim s).length < 120)
  match sentences with
  | s :: _ => some (jsTrim s)
  | [] => none

/-- The pullquote insertion block of
`TemplateGenerator.generateArticleHtml`. -/
def insertPullquote (article : Article) (decision : LayoutDecision)
    (bodyHtml : String) : String :=
  let eligible :=
    (decision.variant.pullquote.map (fun pq => pq.allow)).getD false ∧
      orDefault (decision.variant.pullquote.map (fun pq => pq.min_paragraph)) 3 ≤
        ((jsSplitOn ("</p>") article.bodyHtml).length : ℚ)
  if eligible then
    match extractPullquote article.bodyHtml with
    | some pullquoteText =>
        let paragraphs := jsSplitOn ("</p>") bodyHtml
        let middleIndex := paragraphs.length / 2
        let paragraphs := listModify paragraphs middleIndex (fun s =>
          s ++ "\n<blockquote class=\"pullquote\">\n  " ++ escapeHtml pullquoteText ++
          "\n</blockquote>\n")
        String.intercalate ("</p>") paragraphs
    | none => bodyHtml
  else bodyHtml

/-- Source `TemplateGenerator.generateArticleHtml`. -/
def generateArticleHtml (article : Article) (images : List Image)
    (decision : LayoutDecision) : String :=
  let heroImage := images.find? (fun img => img.role = "hero")
  let inlineImages := images.filter (fun img => img.role = "inline")
  let heroHtml :=
    match heroImage, decision.heroHeight with
    | some hero, some h =>
        if h = 0 then "" else
        "\n<div class=\"hero-image-container\">\n  <img src=\"" ++ escapeHtml hero.src ++
        "\"\n       alt=\"" ++ escapeHtml (strOr hero.caption article.title) ++
        "\"\n       class=\"article-image hero-image\"\n       style=\"object-position: " ++
        strOr hero.focalPoint ("50% 50%") ++ ";\">\n  " ++
        (match hero.caption with
         | some c => if c = "" then "" else
             "<div class=\"image-caption\">" ++ escapeHtml c ++ "</div>"
         | none => "") ++ "\n  " ++
        (match hero.credit with
         | some c => if c = "" then "" else
             "<div class=\"image-credit\">" ++ escapeHtml c ++ "</div>"
         | none => "") ++ "\n</div>\n"
    | _, _ => ""
  let headerHtml :=
    "\n<header class=\"article-header\">\n  <h1 class=\"article-title\">" ++
    escapeHtml article.title ++ "</h1>\n  " ++
    (match article.dek with
     | some d => if d = "" then "" else
         "<div class=\"article-dek\">" ++ escapeHtml d ++ "</div>"
     | none => "") ++
    "\n  <div class=\"article-author\">Von " ++ escapeHtml article.author ++
    "</div>\n</header>\n"
  let bodyHtml := insertInlineImages article.bodyHtml inlineImages
  let bodyHtml := insertPullquote article decision bodyHtml
  heroHtml ++ headerHtml ++
    "\n<div class=\"article-content\">\n  <div class=\"article-body\">\n    " ++
    bodyHtml ++ "\n  </div>\n</div>\n"

/-- Source `TemplateGenerator.generateCoverPage`; `formattedDate` is the
result of the locale date formatting the source applies to
`issue.date`. -/
def generateCoverPage (issue : Issue) (formattedDate : String) : String :=
  "\n<div class=\"cover-page\">\n  <h1 class=\"cover-title\">" ++ escapeHtml issue.title ++
  "</h1>\n  <div class=\"cover-issue\">Ausgabe " ++ escapeHtml issue.issueId ++
  "</div>\n  <div class=\"cover-date\">" ++ formattedDate ++ "</div>\n</div>\n"

/-- The first-appearance order of section names, i.e. the key order of
the source's `sectionGroups` object. -/
def sectionsInOrder (articles : List Article) : List String :=
  articles.foldl
    (fun acc a => if acc.contains a.sectionName then acc else acc ++ [a.sectionName]) []

/-- One TOC entry row; `pageNumber` is the running best-effort page
number. -/
def tocEntryHtml (article : Article) (pageNumber : ℕ) : String :=
  "\n<div class=\"toc-entry\">\n  <span class=\"toc-article-title\">" ++
  escapeHtml article.title ++ "</span>\n  <span class=\"toc-author\">" ++
  escapeHtml article.author ++ "</span>\n  <span class=\"toc-page-number\">" ++
  toString pageNumber ++ "</span>\n</div>\n"

/-- Source `TemplateGenerator.generateTableOfContents` (the `issue`
parameter is received but, as in the source, not read). -/
def generateTableOfContents (_issue : Issue) (articles : List Article) : String :=
  let start := "\n<div class=\"toc-page\">\n  <h2 class=\"toc-title\">Inhalt</h2>\n"
  let step : String × ℕ → String → String × ℕ := fun acc sec =>
    let sectionArticles := articles.filter (fun a => a.sectionName = sec)
    let inner := sectionArticles.foldl
      (fun (acc2 : String × ℕ) a => (acc2.1 ++ tocEntryHtml a acc2.2, acc2.2 + 1))
      ("", acc.2)
    (acc.1 ++ "\n<div class=\"toc-section\">\n  <h3 class=\"toc-section-title\">" ++
       escapeHtml sec ++ "</h3>\n" ++ inner.1 ++ "</div>", inner.2)
  let res := (sectionsInOrder articles).foldl step (start, 3)
  res.1 ++ "</div>"

/-- Source `TemplateGenerator.generateImprint`; `formattedDate` is the
locale-formatted `issue.date`. -/
def generateImprint (pack : TemplatePack) (issue : Issue) (formattedDate : String) : String :=
  "\n<div class=\"imprint-page\">\n  <h2 class=\"imprint-title\">Impressum</h2>\n" ++
  "\n  <div class=\"imprint-section\">\n    <strong>Herausgeber:</strong><br>\n    MagCast Publishing GmbH<br>\n    Musterstraße 123<br>\n    12345 Musterstadt\n  </div>\n" ++
  "\n  <div class=\"imprint-section\">\n    <strong>Redaktion:</strong><br>\n    Chefredaktion: Max Mustermann<br>\n    E-Mail: redaktion@magcast.de\n  </div>\n" ++
  "\n  <div class=\"imprint-section\">\n    <strong>Ausgabe:</strong><br>\n    " ++
  escapeHtml issue.title ++ " - " ++ escapeHtml issue.issueId ++
  "<br>\n    Erscheinungsdatum: " ++ formattedDate ++ "\n  </div>\n" ++
  "\n  <div class=\"imprint-section\">\n    <strong>Technische Umsetzung:</strong><br>\n    Automatisiert erstellt mit MagCast Publishing Engine<br>\n    Template: " ++
  escapeHtml pack.name ++ " v" ++ escapeHtml pack.version ++ "\n  </div>\n" ++
  "\n  <div class=\"imprint-section\">\n    <strong>Copyright:</strong><br>\n    Alle Rechte vorbehalten. Nachdruck, auch auszugsweise, nur mit ausdrücklicher Genehmigung des Verlags.\n  </div>\n</div>\n"

/-- Source `TemplateGenerator.generateMasterCSS`.  The stylesheet is a
constant except for the pack name and the build date interpolated into
the `@page` margin boxes; the constant rule text (reset, page boxes,
cover/TOC/article/imprint classes, print and screen media blocks) is
abridged here to representative rules, since no property proved in
this development depends on its text. -/
def generateMasterCSS (packName : String) (buildDate : String) : String :=
  "\n* \x7b margin: 0; padding: 0; box-sizing: border-box; \x7d\n\n@page \x7b\n  size: A4;\n  margin: 15mm 15mm 20mm 15mm;\n  marks: crop cross;\n  bleed: 3mm;\n  @top-center \x7b content: \"" ++
  packName ++
  "\"; font-size: 8pt; color: #666; \x7d\n  @bottom-center \x7b content: counter(page); font-size: 10pt; \x7d\n  @bottom-left \x7b content: \"" ++
  buildDate ++
  "\"; font-size: 8pt; color: #666; \x7d\n\x7d\n\n@page :first \x7b\n  @top-center \x7b content: none; \x7d\n  @bottom-center \x7b content: none; \x7d\n  @bottom-left \x7b content: none; \x7d\n\x7d\n\nbody \x7b\n  font-family: \x27Times New Roman\x27, serif;\n  color: #1a1a1a;\n  background: white;\n  counter-reset: page;\n\x7d\n\n.magazine \x7b max-width: 210mm; margin: 0 auto; background: white; \x7d\n\n.cover-page \x7b height: 100vh; page-break-after: always; \x7d\n\n.toc-page \x7b page-break-before: always; page-break-after: always; \x7d\n\n.magazine-article \x7b page-break-before: auto; page-break-after: auto; padding: 24pt 0; \x7d\n\n.imprint-page \x7b page-break-before: always; padding: 40pt 0; \x7d\n\n@media print \x7b body \x7b print-color-adjust: exact; \x7d .magazine-article \x7b orphans: 2; widows: 2; \x7d \x7d\n"

/-- The per-article wrapper emitted by the loop of
`TemplateGenerator.generateMagazine`: a scoped `<style>` with the
article's CSS followed by the article markup, inside one
`<article>` element. -/
def articleBlock (articleCss individualArticleHtml : String) : String :=
  "\n<article class=\"magazine-article\" style=\"page-break-before: auto;\">\n  <style scoped>\n    " ++
  articleCss ++ "\n  </style>\n  " ++ individualArticleHtml ++ "\n</article>\n"

/-- The wrapper block produced for one article of the
`generateMagazine` loop: decide the layout, emit the scoped CSS and the
article markup. -/
def articleBlockFor (_pack : TemplatePack) (allImages : List Image)
    (article : Article) (decision : LayoutDecision) : String :=
  let articleImages := allImages.filter (fun img => img.articleId = article.id)
  articleBlock (generateLayoutCSS decision article)
    (generateArticleHtml article articleImages decision)

/-- The body of the per-article `for` loop of
`TemplateGenerator.generateMagazine`, threading the three accumulators
(`layoutDecisions`, `allWarnings`, `articleHtml`); a throw inside
`decideLayout` aborts the whole composition (`none`). -/
def magazineStep (pack : TemplatePack) (allImages : List Image)
    (acc : Option (List LayoutDecision × List String × String)) (article : Article) :
    Option (List LayoutDecision × List String × String) :=
  match acc with
  | none => none
  | some (ds, ws, html) =>
      let articleImages := allImages.filter (fun img => img.articleId = article.id)
      match decideLayout pack.rules article articleImages pack.variants with
      | none => none
      | some decision =>
          some (ds ++ [decision], ws ++ decision.warnings,
            html ++ articleBlockFor pack allImages article decision)

/-- The full document wrapper of `TemplateGenerator.generateMagazine`:
head with master CSS, cover, table of contents, the accumulated article
markup, imprint. -/
def magazineHtml (pack : TemplatePack) (issue : Issue) (buildDate : String)
    (formatDateDe : String → String) (tocHtml articleHtml : String) : String :=
  "\n<!DOCTYPE html>\n<html lang=\"de\">\n<head>\n  <meta charset=\"UTF-8\">\n  <meta name=\"viewport\" content=\"width=device-width, initial-scale=1.0\">\n  <title>" ++
  issue.title ++ " - " ++ issue.issueId ++
  "</title>\n  <style>\n    " ++ generateMasterCSS pack.name buildDate ++
  "\n  </style>\n</head>\n<body>\n  <div class=\"magazine\">\n    " ++
  generateCoverPage issue (formatDateDe issue.date) ++ "\n    " ++
  tocHtml ++ "\n    " ++ articleHtml ++ "\n    " ++
  generateImprint pack issue (formatDateDe issue.date) ++
  "\n  </div>\n</body>\n</html>\n"

/-- Source `TemplateGenerator.generateMagazine`.  `formatDateDe` stands
for the locale date formatting and `buildDate` for the
`new Date().toLocaleDateString()` call inside the master CSS. -/
def generateMagazine (pack : TemplatePack) (issue : Issue) (articles : List Article)
    (allImages : List Image) (buildDate : String) (formatDateDe : String → String) :
    Option GeneratedTemplate :=
  let tocHtml := generateTableOfContents issue articles
  match articles.foldl (magazineStep pack allImages) (some ([], [], "")) with
  | none => none
  | some (layoutDecisions, allWarnings, articleHtml) =>
      let masterCss := generateMasterCSS pack.name buildDate
      let fullHtml := magazineHtml pack issue buildDate formatDateDe tocHtml articleHtml
      let estimatedPageCount := 2 + (articles.length + 1) / 2 + articles.length
      some { html := fullHtml
             css := masterCss
             metadata :=
               { pageCount := estimatedPageCount
                 layoutDecisions := layoutDecisions
                 warnings := allWarnings } }

/-- The layout decision `generateMagazine` computes for one article:
under a non-empty variants list `decideLayout` always returns `some`,
and this is its value (the default is never reached). -/
def decisionFor (pack : TemplatePack) (allImages : List Image)
    (article : Article) : LayoutDecision :=
  (decideLayout pack.rules article
      (allImages.filter (fun img => img.articleId = article.id)) pack.variants).getD
    { variant := { id := "", columns := 1, hero := none, body := none, pullquote := none }
      fontSize := 0
      lineHeight := JSNum.num 0
      heroHeight := none
      columnCount := 1
      score := 0
      warnings := [] }

end TemplateGenerator

/-! ## Render job supervisor (`server/rendering-service.ts`) -/

/-- Render job status values. -/
inductive JobStatus where
  | queued
  | processing
  | completed
  | failed
deriving DecidableEq

/-- The fields of a `render_jobs` row written by the supervisor
(timestamps are abstracted to has-been-set flags). -/
structure JobRow where
  status : JobStatus
  progress : ℕ
  errorMessage : Option String
  pdfUrl : Option String
  warnings : Option (List String)
  startedSet : Bool
  completedSet : Bool
deriving DecidableEq

/-- A job row as created by the HTTP surface: queued, progress 0. -/
def initialJob : JobRow :=
  { status := JobStatus.queued
    progress := 0
    errorMessage := none
    pdfUrl := none
    warnings := none
    startedSet := false
    completedSet := false }

/-- An argument to `RenderingService.updateJobProgress`
(a `Partial<RenderProgress>`). -/
structure ProgressUpdate where
  status : Option JobStatus := none
  progress : Option ℕ := none
  message : Option String := none
  pdfPath : Option String := none
  errors : Option (List String) := none
  warnings : Option (List String) := none

namespace RenderingService

/-- Source `RenderingService.updateJobProgress`, as a pure update of the
row.  Guards mirror the source:  `status` and arrays are applied
whenever present (objects and non-empty strings are truthy, and every
status string is non-empty);  `progress` is applied whenever present,
including `0` (the source checks `!== undefined`);  `message` and
`pdfPath` are skipped when they are the empty string (falsy);  a
present `errors` array overwrites the `errorMessage` a `message` in the
same update would set, as the source assigns `errorMessage` twice. -/
def applyUpdate (row : JobRow) (u : ProgressUpdate) : JobRow :=
  { status := u.status.getD row.status
    progress := u.progress.getD row.progress
    errorMessage :=
      match u.errors with
      | some es => some (String.intercalate ("; ") es)
      | none =>
          match u.message with
          | some m => if m = "" then row.errorMessage else some m
          | none => row.errorMessage
    pdfUrl :=
      match u.pdfPath with
      | some p => if p = "" then row.pdfUrl else some p
      | none => row.pdfUrl
    warnings :=
      match u.warnings with
      | some w => some w
      | none => row.warnings
    startedSet := row.startedSet || u.status = some JobStatus.processing
    completedSet :=
      row.completedSet || u.status = some JobStatus.completed ||
        u.status = some JobStatus.failed }

/-- The progress-10 update (`Loading data...`). -/
def u10 : ProgressUpdate :=
  { status := some JobStatus.processing, progress := some 10,
    message := some ("Loading data...") }

/-- The progress-25 update (`Generating layout...`). -/
def u25 : ProgressUpdate :=
  { status := some JobStatus.processing, progress := some 25,
    message := some ("Generating layout...") }

/-- The progress-50 update (`Optimizing layout decisions...`). -/
def u50 : ProgressUpdate :=
  { status := some JobStatus.processing, progress := some 50,
    message := some ("Optimizing layout decisions...") }

/-- The progress-70 update (`Rendering PDF...`). -/
def u70 : ProgressUpdate :=
  { status := some JobStatus.processing, progress := some 70,
    message := some ("Rendering PDF...") }

/-- The progress-85 update (`Generating output...`). -/
def u85 : ProgressUpdate :=
  { status := some JobStatus.processing, progress := some 85,
    message := some ("Generating output...") }

/-- The progress-95 update (`Finalizing...`). -/
def u95 : ProgressUpdate :=
  { status := some JobStatus.processing, progress := some 95,
    message := some ("Finalizing...") }

/-- The completion update: status `completed`, progress 100, artifact
path and accumulated warnings. -/
def uComplete (outputPath : String) (ws : List String) : ProgressUpdate :=
  { status := some JobStatus.completed, progress := some 100,
    message := some ("Rendering completed successfully"),
    pdfPath := some outputPath, warnings := some ws }

/-- The `catch` handler's update: status `failed`, progress 0, the
thrown error's message in `errors`. -/
def uFail (msg : String) : ProgressUpdate :=
  { status := some JobStatus.failed, progress := some 0,
    message := some ("Rendering failed"), errors := some [msg] }

/-- The update issued by `RenderingService.cancelRenderJob`. -/
def uCancelled : ProgressUpdate :=
  { status := some JobStatus.failed, progress := some 0,
    message := some ("Job cancelled by user"), errors := some ["Job was cancelled"] }

/-- The progress updates of a run of `processRenderJob` that reaches
completion, in order. -/
def successUpdates (outputPath : String) (ws : List String) : List ProgressUpdate :=
  [u10, u25, u50, u70, u85, u95, uComplete outputPath ws]

/-- The progress updates of a run of `processRenderJob` whose pipeline
throws after the `k`-th stage update (`k ≤ 6`): the updates issued so
far, then the `catch` handler's update. -/
def failRunUpdates (k : ℕ) (msg : String) : List ProgressUpdate :=
  (successUpdates "" []).take k ++ [uFail msg]

/-- Fold a run's updates over the freshly created row. -/
def runJob (updates : List ProgressUpdate) : JobRow :=
  updates.foldl applyUpdate initialJob

/-- The progress values reported by a list of updates, in order. -/
def reportedProgress (updates : List ProgressUpdate) : List ℕ :=
  updates.filterMap (fun u => u.progress)

/-- One run of `processRenderJob` under cooperative cancellation.  The
body's events, in source order, are numbered
1 `u10` · 2 check · 3 load · 4 `u25` · 5 check · 6 compose · 7 `u50` ·
8 check · 9 `u70` · 10 `u85` · 11 render-and-write-artifact ·
12 check · 13 `u95` · 14 `uComplete`;  the abort flag raised by
`cancelRenderJob` becomes visible from event `t` on, and the first of
the four checks (events 2, 5, 8, 12) that sees it makes the body throw
`Error('Job was cancelled')`.  Returns the updates issued and whether
the artifact file was written (event 11 reached). -/
def processWithCancelAt (t : ℕ) (outputPath : String) (ws : List String) :
    List ProgressUpdate × Bool :=
  if t ≤ 2 then ([u10, uFail ("Job was cancelled")], false)
  else if t ≤ 5 then ([u10, u25, uFail ("Job was cancelled")], false)
  else if t ≤ 8 then ([u10, u25, u50, uFail ("Job was cancelled")], false)
  else if t ≤ 12 then ([u10, u25, u50, u70, u85, uFail ("Job was cancelled")], true)
  else (successUpdates outputPath ws, true)

end RenderingService

/-! ## Concrete inputs used by witnesses and counterexamples -/

/-- A small concrete article. -/
def sampleArticle : Article :=
  { id := "a1"
    issueId := "i1"
    articleId := "hafen-nacht"
    sectionName := "Reportage"
    title := "Titel"
    dek := none
    author := "Autor"
    bodyHtml := "<p>Hi there</p>" }

/-- A small concrete issue. -/
def sampleIssue : Issue :=
  { id := "i1"
    title := "MagCast"
    issueId := "2025-09"
    date := "2025-09-01" }

/-- A hero image for `sampleArticle`. -/
def sampleHeroImage : Image :=
  { id := "img1"
    articleId := "a1"
    src := "hero.jpg"
    role := "hero"
    caption := none
    credit := none
    focalPoint := none }

/-- A two-column variant with a hero block and no body overrides. -/
def variantA : LayoutVariant :=
  { id := "A"
    columns := 2
    hero := some { min_vh := 30, max_vh := 50 }
    body := none
    pullquote := none }

/-- A variant whose body block supplies its own font bounds, larger
than the pack rules' bounds. -/
def variantBigBody : LayoutVariant :=
  { id := "big"
    columns := 2
    hero := none
    body := some { font_min := 20, font_max := 30, leading := (27/20, 3/2) }
    pullquote := none }

/-- A variant whose body block has `font_min = font_max`. -/
def variantDegenerateBody : LayoutVariant :=
  { id := "deg"
    columns := 1
    hero := none
    body := some { font_min := 10, font_max := 10, leading := (27/20, 3/2) }
    pullquote := none }

/-- Metrics of a short article (100 words), used where only the word
count matters. -/
def sampleMetrics : ArticleMetrics :=
  { wordCount := 100
    paragraphCount := 3
    characterCount := 500
    heroImage := none
    inlineImages := []
    hasLongParagraphs := false
    estimatedLines := 10 }

/-- A template pack holding `variantA` with the default rules. -/
def samplePack : TemplatePack :=
  { name := "Modern"
    version := "1.0"
    variants := [variantA]
    rules := defaultRules }

/-- Two inline images for the image-placement claims. -/
def sampleInlineImage1 : Image :=
  { id := "img2"
    articleId := "a1"
    src := "one.jpg"
    role := "inline"
    caption := none
    credit := none
    focalPoint := none }

/-- Second inline image for the image-placement claims. -/
def sampleInlineImage2 : Image :=
  { id := "img3"
    articleId := "a1"
    src := "two.jpg"
    role := "inline"
    caption := none
    credit := none
    focalPoint := none }

open LayoutEngine TemplateGenerator RenderingService

/-! ## Helper lemmas -/

/-- The head of the stable descending sort is the first element of the
input attaining the maximal score: the input splits as
`pre ++ d :: post` with every element of `pre` scoring strictly less
than `d` and every element at most `d`. -/
theorem sortByScoreDesc_head (ds : List LayoutDecision) (hne : ds ≠ []) :
    ∃ d rest, sortByScoreDesc ds = d :: rest ∧
      ∃ pre post, ds = pre ++ d :: post ∧
        (∀ e ∈ pre, e.score < d.score) ∧ (∀ e ∈ ds, e.score ≤ d.score) := by
  induction ds with
  | nil => exact absurd rfl hne
  | cons x xs ih =>
    cases xs with
    | nil =>
      refine ⟨x, [], rfl, [], [], rfl, ?_, ?_⟩
      · intro e he; simp at he
      · intro e he; simp at he; simp [he]
    | cons y ys =>
      obtain ⟨d, rest, hsort, pre, post, hsplit, hpre, hall⟩ := ih (by simp)
      have hstep : sortByScoreDesc (x :: y :: ys) =
          insertByScoreDesc x (sortByScoreDesc (y :: ys)) := rfl
      by_cases h : d.score ≤ x.score
      · refine ⟨x, d :: rest, ?_, [], y :: ys, rfl, ?_, ?_⟩
        · rw [hstep, hsort]; simp [insertByScoreDesc, h]
        · intro e he; simp at he
        · intro e he
          rcases List.mem_cons.mp he with rfl | he2
          · exact le_refl _
          · exact le_trans (hall e he2) h
      · refine ⟨d, insertByScoreDesc x rest, ?_, x :: pre, post, by simp [hsplit], ?_, ?_⟩
        · rw [hstep, hsort]; simp [insertByScoreDesc, h]
        · intro e he
          rcases List.mem_cons.mp he with rfl | he2
          · exact lt_of_not_le h
          · exact hpre e he2
        · intro e he
          rcases List.mem_cons.mp he with rfl | he2
          · exact le_of_lt (lt_of_not_le h)
          · exact hall e he2

/-- Splitting a mapped list pulls back to a split of the original
list. -/
theorem map_eq_append_cons {α β : Type} (f : α → β) :
    ∀ (l : List α) (p : List β) (b : β) (q : List β),
      l.map f = p ++ b :: q →
      ∃ p1 a q1, l = p1 ++ a :: q1 ∧ p1.map f = p ∧ f a = b ∧ q1.map f = q := by
  intro l p
  induction p generalizing l with
  | nil =>
    intro b q h
    cases l with
    | nil => simp at h
    | cons a l1 =>
      simp at h
      exact ⟨[], a, l1, rfl, rfl, h.1, h.2⟩
  | cons x p1 ih =>
    intro b q h
    cases l with
    | nil => simp at h
    | cons a l1 =>
      simp at h
      obtain ⟨p2, a2, q2, hl, hp, hb, hq⟩ := ih l1 b q h.2
      exact ⟨a :: p2, a2, q2, by simp [hl], by simp [hp, h.1], hb, hq⟩

set_option maxHeartbeats 1000000 in
/-- The score of every candidate decision lies in `[0, 115]`: the
evaluation starts at 100, the only bonuses are +10 (hero on a long
article) and +5 (pullquote eligibility), and the result is clamped
below at 0. -/
theorem evaluateVariant_score_bounds (rules : LayoutRules) (v : LayoutVariant)
    (m : ArticleMetrics) (a : Article) :
    0 ≤ (evaluateVariant rules v m a).score ∧ (evaluateVariant rules v m a).score ≤ 115 := by
  unfold evaluateVariant
  rcases v.hero with _ | h <;> rcases m.heroImage with _ | img <;>
    dsimp only <;>
    split_ifs <;>
    exact ⟨le_max_left _ _, by decide⟩

/-- C1: for every article, image list and non-empty variants list,
`decideLayout` returns the candidate decision with the highest score,
with ties broken in favor of the variant appearing earlier in
`variants`: the variants list splits as `pre ++ v :: post` such that
the returned decision is `v`'s candidate, every variant's candidate
scores at most it, and every candidate of a variant in `pre` scores
strictly less (so among equal maxima the earliest wins). -/
theorem decideLayout_stable_highest_score (rules : LayoutRules) (article : Article)
    (images : List Image) (variants : List LayoutVariant) (hne : variants ≠ []) :
    ∃ d, decideLayout rules article images variants = some d ∧
      ∃ pre v post, variants = pre ++ v :: post ∧
        d = evaluateVariant rules v (analyzeArticle article images) article ∧
        (∀ w ∈ variants,
          (evaluateVariant rules w (analyzeArticle article images) article).score ≤ d.score) ∧
        (∀ w ∈ pre,
          (evaluateVariant rules w (analyzeArticle article images) article).score < d.score) := by
  have hds : variants.map
      (fun v => evaluateVariant rules v (analyzeArticle article images) article) ≠ [] := by
    simpa using hne
  obtain ⟨d, rest, hsort, pre1, post1, hsplit, hpre, hall⟩ :=
    sortByScoreDesc_head _ hds
  refine ⟨d, ?_, ?_⟩
  · simp only [decideLayout]
    rw [hsort]
  · obtain ⟨pre, v, post, hvar, hmpre, hfv, hmpost⟩ :=
      map_eq_append_cons _ variants pre1 d post1 hsplit
    refine ⟨pre, v, post, hvar, hfv.symm, ?_, ?_⟩
    · intro w hw
      exact hall _ (List.mem_map_of_mem _ hw)
    · intro w hw
      refine hpre _ ?_
      rw [← hmpre]
      exact List.mem_map_of_mem _ hw

/-- Witness for C1 at a concrete input. -/
theorem decideLayout_stable_highest_score_witness :
    ∃ d, decideLayout defaultRules sampleArticle [] [variantA] = some d ∧
      ∃ pre v post, [variantA] = pre ++ v :: post ∧
        d = evaluateVariant defaultRules v (analyzeArticle sampleArticle []) sampleArticle ∧
        (∀ w ∈ [variantA],
          (evaluateVariant defaultRules w (analyzeArticle sampleArticle [])
            sampleArticle).score ≤ d.score) ∧
        (∀ w ∈ pre,
          (evaluateVariant defaultRules w (analyzeArticle sampleArticle [])
            sampleArticle).score < d.score) :=
  decideLayout_stable_highest_score defaultRules sampleArticle [] [variantA] (by simp)

/-- C3: with an empty variants list, `decideLayout` does not return a
fallback decision — `decisions[0]` is `undefined`, so the source calls
`getFallbackDecision(variants[0], metrics)` with `variants[0]`
likewise `undefined`, and dereferencing `variant.columns` there throws
a `TypeError` (modelled by `none`).  The claimed fallback result
(score 50, `columnCount = 1`, …) is never produced. -/
theorem decideLayout_empty_variants_throws (rules : LayoutRules) (article : Article)
    (images : List Image) :
    decideLayout rules article images [] = none := rfl

/-- C9: every decision returned by `decideLayout` (on a non-empty
variants list, i.e. whenever it returns at all) has a score in
`[0, 115]`. -/
theorem decideLayout_score_in_bounds (rules : LayoutRules) (article : Article)
    (images : List Image) (variants : List LayoutVariant) (d : LayoutDecision)
    (hd : decideLayout rules article images variants = some d) :
    0 ≤ d.score ∧ d.score ≤ 115 := by
  cases variants with
  | nil => simp [decideLayout, sortByScoreDesc, getFallbackDecision] at hd
  | cons v0 vs =>
    have hds : (v0 :: vs).map
        (fun v => evaluateVariant rules v (analyzeArticle article images) article) ≠ [] := by
      simp
    obtain ⟨d1, rest, hsort, pre1, post1, hsplit, hpre, hall⟩ :=
      sortByScoreDesc_head _ hds
    have hd1 : decideLayout rules article images (v0 :: vs) = some d1 := by
      simp only [decideLayout]
      rw [hsort]
    have hdd : d = d1 := by
      rw [hd1] at hd
      exact (Option.some.injEq _ _ ▸ hd).symm
    have hmem : d1 ∈ (v0 :: vs).map
        (fun v => evaluateVariant rules v (analyzeArticle article images) article) := by
      rw [hsplit]; simp
    obtain ⟨w, _, hw⟩ := List.mem_map.mp hmem
    subst hdd
    rw [← hw]
    exact evaluateVariant_score_bounds rules w (analyzeArticle article images) article

/-- Witness for C9 at a concrete input. -/
theorem decideLayout_score_in_bounds_witness :
    ∃ d, decideLayout defaultRules sampleArticle [] [variantA] = some d ∧
      0 ≤ d.score ∧ d.score ≤ 115 := by
  rcases h : decideLayout defaultRules sampleArticle [] [variantA] with _ | d
  · exact absurd h (by decide)
  · exact ⟨d, rfl, decideLayout_score_in_bounds defaultRules sampleArticle [] [variantA] d h⟩

/-- C10: the per-article CSS emitted by `generateLayoutCSS` is
determined by the layout decision alone; the `article` argument is
never read, so any two articles yield the identical string. -/
theorem generateLayoutCSS_ignores_article (d : LayoutDecision) (a1 a2 : Article) :
    generateLayoutCSS d a1 = generateLayoutCSS d a2 := rfl

/-- Dividing a finite number by (positive) zero never yields a finite
number. -/
theorem jsnum_div_num_zero_not_finite (a : ℚ) :
    (JSNum.div (JSNum.num a) (JSNum.num 0)).isFiniteNum = false := by
  simp only [JSNum.div]
  split_ifs <;> rfl

/-- Multiplying a non-finite number by a finite one on the left never
yields a finite number. -/
theorem jsnum_mul_num_not_finite (q : ℚ) (x : JSNum) (hx : x.isFiniteNum = false) :
    (JSNum.mul (JSNum.num q) x).isFiniteNum = false := by
  cases x with
  | num a => simp [JSNum.isFiniteNum] at hx
  | inf s => simp only [JSNum.mul]; split_ifs <;> rfl
  | nan => rfl

/-- Multiplying a non-finite number by a finite one on the right never
yields a finite number. -/
theorem jsnum_mul_not_finite_num (x : JSNum) (q : ℚ) (hx : x.isFiniteNum = false) :
    (JSNum.mul x (JSNum.num q)).isFiniteNum = false := by
  cases x with
  | num a => simp [JSNum.isFiniteNum] at hx
  | inf s => simp only [JSNum.mul]; split_ifs <;> rfl
  | nan => rfl

/-- Adding a finite number to a non-finite one never yields a finite
number. -/
theorem jsnum_add_num_not_finite (q : ℚ) (x : JSNum) (hx : x.isFiniteNum = false) :
    (JSNum.add (JSNum.num q) x).isFiniteNum = false := by
  cases x with
  | num a => simp [JSNum.isFiniteNum] at hx
  | inf s => rfl
  | nan => rfl

/-- Rounding a non-finite number never yields a finite number. -/
theorem jsnum_round_not_finite (x : JSNum) (hx : x.isFiniteNum = false) :
    x.round.isFiniteNum = false := by
  cases x with
  | num a => simp [JSNum.isFiniteNum] at hx
  | inf s => rfl
  | nan => rfl

/-- Dividing a non-finite number by a finite one never yields a finite
number. -/
theorem jsnum_div_not_finite_num (x : JSNum) (q : ℚ) (hx : x.isFiniteNum = false) :
    (JSNum.div x (JSNum.num q)).isFiniteNum = false := by
  cases x with
  | num a => simp [JSNum.isFiniteNum] at hx
  | inf s => simp only [JSNum.div]; split_ifs <;> rfl
  | nan => rfl

/-- Counterexample to C8 as stated: for a variant whose body has
`font_min = font_max = 10` and a 100-word article, the source's
`(fontSize - baseFont) / (maxFont - baseFont)` is `0 / 0 = NaN` — there
is no `hi == lo` guard — so the computed line height is NaN, not the
claimed well-defined `lh_lo = 1.35`. -/
theorem optimizeTypography_equal_bounds_nan :
    (optimizeTypography defaultRules sampleMetrics variantDegenerateBody).2 = JSNum.nan ∧
      JSNum.nan ≠ JSNum.num (27/20) := by
  have hlo : effFontMin defaultRules variantDegenerateBody = 10 := by
    norm_num [effFontMin, orDefault, variantDegenerateBody, defaultRules]
  have hhi : effFontMax defaultRules variantDegenerateBody = 10 := by
    norm_num [effFontMax, orDefault, variantDegenerateBody, defaultRules]
  have hraw : rawFontSize defaultRules sampleMetrics variantDegenerateBody = 10 := by
    simp only [rawFontSize, hlo, hhi]
    norm_num [sampleMetrics, variantDegenerateBody, min_def]
  constructor
  · simp only [optimizeTypography, hraw, hlo, hhi, sub_self]
    simp [JSNum.div, JSNum.mul, JSNum.add, JSNum.round]
  · decide

/-- C8 (amended): the source computes
`t = (font_pre_rounding − lo) / (hi − lo)` with no guard: when
`hi = lo` the division by zero makes the resulting line height
non-finite (NaN or ±Infinity), never the claimed `lh_lo`; when
`hi ≠ lo` the returned line height is
`lh_lo + t·(lh_hi − lh_lo)` rounded to 2 decimals, with `t` computed
from the pre-rounding font size. -/
theorem optimizeTypography_lineHeight_interpolation (rules : LayoutRules)
    (m : ArticleMetrics) (v : LayoutVariant) :
    (effFontMax rules v = effFontMin rules v →
      (optimizeTypography rules m v).2.isFiniteNum = false) ∧
    (effFontMax rules v ≠ effFontMin rules v →
      (optimizeTypography rules m v).2 =
        JSNum.num (roundTo2 (effLeadingLo rules v +
          (effLeadingHi rules v - effLeadingLo rules v) *
            ((rawFontSize rules m v - effFontMin rules v) /
              (effFontMax rules v - effFontMin rules v))))) := by
  constructor
  · intro h
    show (JSNum.div (JSNum.round (JSNum.mul (JSNum.add
        (JSNum.num (effLeadingLo rules v))
        (JSNum.mul (JSNum.num (effLeadingHi rules v - effLeadingLo rules v))
          (JSNum.div (JSNum.num (rawFontSize rules m v - effFontMin rules v))
            (JSNum.num (effFontMax rules v - effFontMin rules v)))))
        (JSNum.num 100))) (JSNum.num 100)).isFiniteNum = false
    rw [h, sub_self]
    exact jsnum_div_not_finite_num _ _
      (jsnum_round_not_finite _
        (jsnum_mul_not_finite_num _ _
          (jsnum_add_num_not_finite _ _
            (jsnum_mul_num_not_finite _ _
              (jsnum_div_num_zero_not_finite _)))))
  · intro h
    have hne : effFontMax rules v - effFontMin rules v ≠ 0 := sub_ne_zero.mpr h
    show (JSNum.div (JSNum.round (JSNum.mul (JSNum.add
        (JSNum.num (effLeadingLo rules v))
        (JSNum.mul (JSNum.num (effLeadingHi rules v - effLeadingLo rules v))
          (JSNum.div (JSNum.num (rawFontSize rules m v - effFontMin rules v))
            (JSNum.num (effFontMax rules v - effFontMin rules v)))))
        (JSNum.num 100))) (JSNum.num 100)) = _
    simp only [JSNum.div, JSNum.mul, JSNum.add, JSNum.round, hne, if_false, roundTo2]
    norm_num

/-- Witness for C8 (amended) at a concrete input with `hi ≠ lo`. -/
theorem optimizeTypography_lineHeight_interpolation_witness :
    (optimizeTypography defaultRules sampleMetrics variantA).2 =
      JSNum.num (roundTo2 (effLeadingLo defaultRules variantA +
        (effLeadingHi defaultRules variantA - effLeadingLo defaultRules variantA) *
          ((rawFontSize defaultRules sampleMetrics variantA -
              effFontMin defaultRules variantA) /
            (effFontMax defaultRules variantA - effFontMin defaultRules variantA)))) :=
  (optimizeTypography_lineHeight_interpolation defaultRules sampleMetrics variantA).2
    (by norm_num [effFontMax, effFontMin, orDefault, variantA, defaultRules])

/-- C2 (amended): the decision's `fontSize`, after rounding to one
decimal, lies within the closed interval given by the variant's
EFFECTIVE font bounds — the variant's own `body.font_min`/`font_max`
when supplied (and non-zero), else the pack rules' bounds — provided
those effective bounds are multiples of 0.1 with
`lo + 0.2 ≤ hi`.  A body block that supplies its own bounds therefore
escapes `[rules.typography.font_min, rules.typography.font_max]`,
contrary to the claim (see the counterexample). -/
theorem evaluateVariant_fontSize_within_effective_bounds (rules : LayoutRules)
    (v : LayoutVariant) (m : ArticleMetrics) (art : Article) (a b : ℤ)
    (hlo : effFontMin rules v = (a : ℚ) / 10) (hhi : effFontMax rules v = (b : ℚ) / 10)
    (hab : a + 2 ≤ b) :
    effFontMin rules v ≤ (evaluateVariant rules v m art).fontSize ∧
      (evaluateVariant rules v m art).fontSize ≤ effFontMax rules v := by
  have hfs : (evaluateVariant rules v m art).fontSize = roundTo1 (rawFontSize rules m v) := by
    simp only [evaluateVariant, optimizeTypography]
  have hab2 : (a : ℚ) + 2 ≤ (b : ℚ) := by exact_mod_cast hab
  have hl : effFontMin rules v ≤ effFontMax rules v := by rw [hlo, hhi]; linarith
  have hstep : effFontMin rules v + 1/5 ≤ effFontMax rules v := by rw [hlo, hhi]; linarith
  have hraw : effFontMin rules v ≤ rawFontSize rules m v ∧
      rawFontSize rules m v ≤ effFontMax rules v := by
    simp only [rawFontSize]
    split_ifs with hc h1 h2
    · exact ⟨le_max_left _ _,
        max_le hl (by linarith [min_le_left (effFontMax rules v) (effFontMin rules v + 1/2)])⟩
    · refine ⟨le_max_left _ _, max_le hl ?_⟩
      have h3 : max (effFontMin rules v) (effFontMax rules v - 3/10) ≤ effFontMax rules v :=
        max_le hl (by linarith)
      linarith
    · exact ⟨le_max_left _ _, max_le hl (by linarith)⟩
    · exact ⟨le_min hl (by linarith), min_le_left _ _⟩
    · exact ⟨le_max_left _ _, max_le hl (by linarith)⟩
    · exact ⟨by linarith, by linarith⟩
  have hfl : a ≤ ⌊rawFontSize rules m v * 10 + 1/2⌋ := by
    apply Int.le_floor.mpr
    have := hraw.1
    rw [hlo] at this
    linarith
  have hfu : ⌊rawFontSize rules m v * 10 + 1/2⌋ ≤ b := by
    have h2 := hraw.2
    rw [hhi] at h2
    have : rawFontSize rules m v * 10 + 1/2 < ((b + 1 : ℤ) : ℚ) := by push_cast; linarith
    have := Int.floor_lt.mpr this
    omega
  rw [hfs]
  unfold roundTo1
  constructor
  · rw [hlo]
    have hcast : (a : ℚ) ≤ ((⌊rawFontSize rules m v * 10 + 1/2⌋ : ℤ) : ℚ) := by
      exact_mod_cast hfl
    linarith
  · rw [hhi]
    have hcast : ((⌊rawFontSize rules m v * 10 + 1/2⌋ : ℤ) : ℚ) ≤ (b : ℚ) := by
      exact_mod_cast hfu
    linarith

/-- Counterexample to C2 as stated: a variant whose body block supplies
`font_min = 20`, `font_max = 30` yields a decision with
`fontSize = 20.5`, outside the pack rules' font interval
`[9.5, 10.5]`; variant body bounds replace — not clamp to — the
rules' bounds. -/
theorem decideLayout_bodyOverride_fontSize_cex :
    (decideLayout defaultRules sampleArticle [] [variantBigBody]).map
        (fun d => d.fontSize) = some (41/2) ∧
      ¬ ((41/2 : ℚ) ≤ defaultRules.typography.font_max) := by
  have h0 : decideLayout defaultRules sampleArticle [] [variantBigBody] =
      some (evaluateVariant defaultRules variantBigBody
        (analyzeArticle sampleArticle []) sampleArticle) := rfl
  have hfs : (evaluateVariant defaultRules variantBigBody
      (analyzeArticle sampleArticle []) sampleArticle).fontSize =
      roundTo1 (rawFontSize defaultRules (analyzeArticle sampleArticle []) variantBigBody) := by
    simp only [evaluateVariant, optimizeTypography]
  have hwc : (analyzeArticle sampleArticle []).wordCount = 2 := by decide
  have hlo : effFontMin defaultRules variantBigBody = 20 := by
    norm_num [effFontMin, orDefault, variantBigBody, defaultRules]
  have hhi : effFontMax defaultRules variantBigBody = 30 := by
    norm_num [effFontMax, orDefault, variantBigBody, defaultRules]
  have hraw : rawFontSize defaultRules (analyzeArticle sampleArticle []) variantBigBody
      = 41/2 := by
    simp only [rawFontSize, hlo, hhi, hwc]
    norm_num [variantBigBody, min_def]
  have hr : roundTo1 (41/2 : ℚ) = 41/2 := by
    unfold roundTo1
    norm_num
  constructor
  · rw [h0]
    simp [hfs, hraw, hr]
  · norm_num [defaultRules]

/-- Witness for C2 (amended) at a concrete input. -/
theorem evaluateVariant_fontSize_within_effective_bounds_witness :
    effFontMin defaultRules variantA ≤
        (evaluateVariant defaultRules variantA sampleMetrics sampleArticle).fontSize ∧
      (evaluateVariant defaultRules variantA sampleMetrics sampleArticle).fontSize ≤
        effFontMax defaultRules variantA :=
  evaluateVariant_fontSize_within_effective_bounds defaultRules variantA sampleMetrics
    sampleArticle 95 105
    (by norm_num [effFontMin, orDefault, variantA, defaultRules])
    (by norm_num [effFontMax, orDefault, variantA, defaultRules])
    (by norm_num)

/-- Counterexample to C4 as stated: a job whose pipeline throws after
the progress-85 update is set to `failed` with progress RESET TO 0 —
not left at its last reported value 85 (the `catch` handler passes
`progress: 0` and `updateJobProgress` applies any value that is not
`undefined`) — and the reported progress sequence `[10,25,50,70,85,0]`
is not monotone. -/
theorem processRenderJob_failure_resets_progress_cex :
    (runJob (failRunUpdates 5 "boom")).status = JobStatus.failed ∧
      (runJob ((successUpdates "" []).take 5)).progress = 85 ∧
      (runJob (failRunUpdates 5 "boom")).progress = 0 ∧
      reportedProgress (failRunUpdates 5 "boom") = [10, 25, 50, 70, 85, 0] ∧
      ¬ List.Pairwise (fun a b => a ≤ b) (reportedProgress (failRunUpdates 5 "boom")) := by
  refine ⟨?_, ?_, ?_, ?_, ?_⟩ <;> decide

/-- C4 (amended): when a render job fails (after any prefix of the
stage updates), the supervisor sets status = `failed` and resets
progress to 0; along the successful path the reported progress
sequence `[10,25,50,70,85,95,100]` is non-decreasing; the terminal
progress is exactly 100 in the completed case and 0 (never 100) in the
failed case. -/
theorem processRenderJob_progress_behavior (k : ℕ) (hk : k ≤ 6)
    (msg outputPath : String) (ws : List String) :
    (runJob (failRunUpdates k msg)).status = JobStatus.failed ∧
      (runJob (failRunUpdates k msg)).progress = 0 ∧
      (runJob (successUpdates outputPath ws)).status = JobStatus.completed ∧
      (runJob (successUpdates outputPath ws)).progress = 100 ∧
      List.Pairwise (fun a b => a ≤ b) (reportedProgress (successUpdates outputPath ws)) := by
  refine ⟨?_, ?_, ?_, ?_, ?_⟩
  · interval_cases k <;>
      simp [runJob, failRunUpdates, successUpdates, applyUpdate, u10, u25, u50, u70, u85,
        u95, uComplete, uFail, initialJob]
  · interval_cases k <;>
      simp [runJob, failRunUpdates, successUpdates, applyUpdate, u10, u25, u50, u70, u85,
        u95, uComplete, uFail, initialJob]
  · simp [runJob, successUpdates, applyUpdate, u10, u25, u50, u70, u85, u95, uComplete,
      initialJob]
  · simp [runJob, successUpdates, applyUpdate, u10, u25, u50, u70, u85, u95, uComplete,
      initialJob]
  · have h : reportedProgress (successUpdates outputPath ws) =
        [10, 25, 50, 70, 85, 95, 100] := by
      simp [reportedProgress, successUpdates, u10, u25, u50, u70, u85, u95, uComplete]
    rw [h]
    decide

/-- Counterexample to C5 as stated: cancellation requested after the
artifact is written (visible only from event 12 on, i.e. after the
write at event 11) is still observed by the post-write cooperative
check, so the job ends `failed` with "Job was cancelled" and no
artifact path recorded — not `completed` with progress 100 and the
path recorded, as claimed. -/
theorem processRenderJob_cancel_after_write_cex :
    (processWithCancelAt 12 "/api/downloads/x.pdf" []).2 = true ∧
      (runJob (processWithCancelAt 12 "/api/downloads/x.pdf" []).1).status =
        JobStatus.failed ∧
      (runJob (processWithCancelAt 12 "/api/downloads/x.pdf" []).1).errorMessage =
        some "Job was cancelled" ∧
      (runJob (processWithCancelAt 12 "/api/downloads/x.pdf" []).1).pdfUrl = none := by
  refine ⟨?_, ?_, ?_, ?_⟩ <;> decide

/-- C5 (amended): cancellation observed at any of the first three
cooperative checks (all before the artifact is written) fails the job
with "Job was cancelled", no artifact on disk and no path recorded;
cancellation becoming visible between the 85-update and the post-write
check — including after the artifact write itself — is observed by the
post-write check and likewise fails the job, with the artifact file
already on disk (never rolled back) but its path not recorded; only
cancellation arriving after the post-write check leaves the job
`completed` with progress 100 and the artifact path recorded. -/
theorem processRenderJob_cancellation (t : ℕ) (outputPath : String) (ws : List String)
    (hpath : outputPath ≠ "") :
    (t ≤ 8 →
      (runJob (processWithCancelAt t outputPath ws).1).status = JobStatus.failed ∧
        (runJob (processWithCancelAt t outputPath ws).1).errorMessage =
          some "Job was cancelled" ∧
        (processWithCancelAt t outputPath ws).2 = false ∧
        (runJob (processWithCancelAt t outputPath ws).1).pdfUrl = none) ∧
    (9 ≤ t → t ≤ 12 →
      (runJob (processWithCancelAt t outputPath ws).1).status = JobStatus.failed ∧
        (runJob (processWithCancelAt t outputPath ws).1).errorMessage =
          some "Job was cancelled" ∧
        (processWithCancelAt t outputPath ws).2 = true ∧
        (runJob (processWithCancelAt t outputPath ws).1).pdfUrl = none) ∧
    (13 ≤ t →
      (runJob (processWithCancelAt t outputPath ws).1).status = JobStatus.completed ∧
        (runJob (processWithCancelAt t outputPath ws).1).progress = 100 ∧
        (runJob (processWithCancelAt t outputPath ws).1).pdfUrl = some outputPath ∧
        (processWithCancelAt t outputPath ws).2 = true) := by
  refine ⟨fun h8 => ?_, fun h9 h12 => ?_, fun h13 => ?_⟩
  · by_cases ha : t ≤ 2
    · simp only [processWithCancelAt, if_pos ha]
      refine ⟨?_, ?_, ?_, ?_⟩ <;> decide
    · by_cases hb : t ≤ 5
      · simp only [processWithCancelAt, if_neg ha, if_pos hb]
        refine ⟨?_, ?_, ?_, ?_⟩ <;> decide
      · simp only [processWithCancelAt, if_neg ha, if_neg hb, if_pos h8]
        refine ⟨?_, ?_, ?_, ?_⟩ <;> decide
  · simp only [processWithCancelAt, if_neg (by omega : ¬ t ≤ 2), if_neg (by omega : ¬ t ≤ 5),
      if_neg (by omega : ¬ t ≤ 8), if_pos h12]
    refine ⟨?_, ?_, ?_, ?_⟩ <;> decide
  · simp only [processWithCancelAt, if_neg (by omega : ¬ t ≤ 2), if_neg (by omega : ¬ t ≤ 5),
      if_neg (by omega : ¬ t ≤ 8), if_neg (by omega : ¬ t ≤ 12)]
    refine ⟨?_, ?_, ?_, trivial⟩
    · simp [runJob, successUpdates, applyUpdate, u10, u25, u50, u70, u85, u95,
        uComplete, initialJob]
    · simp [runJob, successUpdates, applyUpdate, u10, u25, u50, u70, u85, u95,
        uComplete, initialJob]
    · simp [runJob, successUpdates, applyUpdate, u10, u25, u50, u70, u85, u95,
        uComplete, initialJob, hpath]

/-- Witness for C4 (amended) at a concrete input. -/
theorem processRenderJob_progress_behavior_witness :
    (runJob (failRunUpdates 3 "load failed")).status = JobStatus.failed ∧
      (runJob (failRunUpdates 3 "load failed")).progress = 0 ∧
      (runJob (successUpdates "/api/downloads/out.pdf" [])).status = JobStatus.completed ∧
      (runJob (successUpdates "/api/downloads/out.pdf" [])).progress = 100 ∧
      List.Pairwise (fun a b => a ≤ b)
        (reportedProgress (successUpdates "/api/downloads/out.pdf" [])) :=
  processRenderJob_progress_behavior 3 (by decide) "load failed" "/api/downloads/out.pdf" []

/-- Witness for C5 (amended) at a concrete input. -/
theorem processRenderJob_cancellation_witness :
    (1 ≤ 8 →
      (runJob (processWithCancelAt 1 "/api/downloads/out.pdf" []).1).status =
          JobStatus.failed ∧
        (runJob (processWithCancelAt 1 "/api/downloads/out.pdf" []).1).errorMessage =
          some "Job was cancelled" ∧
        (processWithCancelAt 1 "/api/downloads/out.pdf" []).2 = false ∧
        (runJob (processWithCancelAt 1 "/api/downloads/out.pdf" []).1).pdfUrl = none) ∧
    (9 ≤ 1 → 1 ≤ 12 →
      (runJob (processWithCancelAt 1 "/api/downloads/out.pdf" []).1).status =
          JobStatus.failed ∧
        (runJob (processWithCancelAt 1 "/api/downloads/out.pdf" []).1).errorMessage =
          some "Job was cancelled" ∧
        (processWithCancelAt 1 "/api/downloads/out.pdf" []).2 = true ∧
        (runJob (processWithCancelAt 1 "/api/downloads/out.pdf" []).1).pdfUrl = none) ∧
    (13 ≤ 1 →
      (runJob (processWithCancelAt 1 "/api/downloads/out.pdf" []).1).status =
          JobStatus.completed ∧
        (runJob (processWithCancelAt 1 "/api/downloads/out.pdf" []).1).progress = 100 ∧
        (runJob (processWithCancelAt 1 "/api/downloads/out.pdf" []).1).pdfUrl =
          some "/api/downloads/out.pdf" ∧
        (processWithCancelAt 1 "/api/downloads/out.pdf" []).2 = true) :=
  processRenderJob_cancellation 1 "/api/downloads/out.pdf" [] (by decide)

/-- The paragraph-piece update preserves the list length. -/
theorem listModify_length {α : Type} (l : List α) (i : ℕ) (f : α → α) :
    (listModify l i f).length = l.length := by
  induction l generalizing i with
  | nil => rfl
  | cons a as ih =>
    cases i with
    | zero => rfl
    | succ n => simp [listModify, ih]

/-- Elementwise description of the paragraph-piece update. -/
theorem listModify_getD {α : Type} (l : List α) (i : ℕ) (f : α → α) (j : ℕ) (d : α)
    (hj : j < l.length) :
    (listModify l i f).getD j d = if j = i then f (l.getD j d) else l.getD j d := by
  induction l generalizing i j with
  | nil => simp at hj
  | cons a as ih =>
    cases i with
    | zero =>
      cases j with
      | zero => simp [listModify]
      | succ m => simp [listModify]
    | succ n =>
      cases j with
      | zero => simp [listModify]
      | succ m =>
        simp only [listModify, List.getD_cons_succ]
        rw [ih n m (by simpa using hj)]
        simp

/-- The guarded append-at-position fold preserves the list length. -/
theorem appendAtFold_length (pairs : List (ℕ × String)) (ps : List String) :
    (pairs.foldl (fun ps pf =>
        if pf.1 < ps.length then listModify ps pf.1 (fun s => s ++ pf.2) else ps) ps).length
      = ps.length := by
  induction pairs generalizing ps with
  | nil => rfl
  | cons p rest ih =>
    simp only [List.foldl_cons]
    by_cases h : p.1 < ps.length
    · rw [if_pos h, ih, listModify_length]
    · rw [if_neg h, ih]

/-- Elementwise description of the guarded append-at-position fold: the
piece at index `j` receives, appended in order, exactly the strings of
the pairs whose position equals `j`. -/
theorem appendAtFold_getD (pairs : List (ℕ × String)) (ps : List String) (j : ℕ)
    (hj : j < ps.length) :
    (pairs.foldl (fun ps pf =>
        if pf.1 < ps.length then listModify ps pf.1 (fun s => s ++ pf.2) else ps) ps).getD j ""
      = ps.getD j "" ++
        strConcat (pairs.filterMap (fun q => if q.1 = j then some q.2 else none)) := by
  induction pairs generalizing ps with
  | nil => simp [strConcat, String.append_empty]
  | cons p rest ih =>
    simp only [List.foldl_cons]
    by_cases h : p.1 < ps.length
    · rw [if_pos h]
      rw [ih (listModify ps p.1 (fun s => s ++ p.2)) (by rw [listModify_length]; exact hj)]
      rw [listModify_getD ps p.1 _ j "" hj]
      by_cases hji : j = p.1
      · rw [if_pos hji, List.filterMap_cons]
        rw [if_pos hji.symm]
        simp only [strConcat]
        rw [String.append_assoc]
      · rw [if_neg hji, List.filterMap_cons]
        rw [if_neg (fun hh => hji hh.symm)]
    · rw [if_neg h]
      rw [ih ps hj, List.filterMap_cons]
      have : ¬ p.1 = j := by omega
      rw [if_neg this]

set_option maxRecDepth 20000 in
/-- Counterexample to C6 as stated: with 5 split pieces and 2 inline
images the source appends the second figure to piece index
`floor(5/3)·2 = 2`, not `floor(5·2/3) = 3` as the claimed formula
`floor(n·(i+1)/(k+1))` requires. -/
theorem insertInlineImages_positions_cex :
    insertInlineImages "a</p>b</p>c</p>d</p>e" [sampleInlineImage1, sampleInlineImage2] =
      String.intercalate ("</p>")
        ["a", "b" ++ inlineImageHtml sampleInlineImage1,
         "c" ++ inlineImageHtml sampleInlineImage2, "d", "e"] ∧
      insertInlineImages "a</p>b</p>c</p>d</p>e" [sampleInlineImage1, sampleInlineImage2] ≠
        String.intercalate ("</p>")
          ["a", "b" ++ inlineImageHtml sampleInlineImage1, "c",
           "d" ++ inlineImageHtml sampleInlineImage2, "e"] := by
  refine ⟨?_, ?_⟩ <;> decide

/-- C6 (amended): for every body and non-empty inline image list, the
composer splits the body at `</p>` into `n` pieces and appends the
figure of the `i`-th image (0-based) to the piece at index
`floor(n/(k+1))·(i+1)` — a single floored spacing multiplied up, not
`floor(n·(i+1)/(k+1))` — skipping positions that fall outside the
list; the pieces are then re-joined with `</p>`. -/
theorem insertInlineImages_appends_at_spacing_multiples (bodyHtml : String)
    (inlineImages : List Image) (hne : inlineImages ≠ []) :
    ∃ pieces : List String,
      insertInlineImages bodyHtml inlineImages = String.intercalate ("</p>") pieces ∧
      pieces.length = (jsSplitOn ("</p>") bodyHtml).length ∧
      ∀ j, j < (jsSplitOn ("</p>") bodyHtml).length →
        pieces.getD j "" = (jsSplitOn ("</p>") bodyHtml).getD j "" ++
          strConcat (((List.range inlineImages.length).zip inlineImages).filterMap
            (fun q =>
              if ((jsSplitOn ("</p>") bodyHtml).length / (inlineImages.length + 1)) *
                  (q.1 + 1) = j
              then some (inlineImageHtml q.2) else none)) := by
  have hlen : 0 < inlineImages.length := List.length_pos.mpr hne
  have hzip : (calculateImagePositions (jsSplitOn ("</p>") bodyHtml).length
        inlineImages.length).zip inlineImages =
      ((List.range inlineImages.length).zip inlineImages).map
        (Prod.map (fun i =>
          ((jsSplitOn ("</p>") bodyHtml).length / (inlineImages.length + 1)) * (i + 1)) id) := by
    simp only [calculateImagePositions]
    rw [List.zip_map_left]
  refine ⟨(calculateImagePositions (jsSplitOn ("</p>") bodyHtml).length
      inlineImages.length).zip inlineImages |>.foldl
        (fun ps pi =>
          if pi.1 < ps.length then listModify ps pi.1 (fun s => s ++ inlineImageHtml pi.2)
          else ps) (jsSplitOn ("</p>") bodyHtml), ?_, ?_, ?_⟩
  · simp only [insertInlineImages, if_pos hlen]
  · rw [hzip, List.foldl_map]
    have := appendAtFold_length
      (((List.range inlineImages.length).zip inlineImages).map
        (Prod.map (fun i =>
          ((jsSplitOn ("</p>") bodyHtml).length / (inlineImages.length + 1)) * (i + 1))
          (fun img => inlineImageHtml img)))
      (jsSplitOn ("</p>") bodyHtml)
    rw [List.foldl_map] at this
    exact this
  · intro j hj
    have key := appendAtFold_getD
      (((List.range inlineImages.length).zip inlineImages).map
        (Prod.map (fun i =>
          ((jsSplitOn ("</p>") bodyHtml).length / (inlineImages.length + 1)) * (i + 1))
          (fun img => inlineImageHtml img)))
      (jsSplitOn ("</p>") bodyHtml) j hj
    rw [List.foldl_map, List.filterMap_map] at key
    rw [hzip, List.foldl_map]
    exact key

/-- Witness for C6 (amended) at a concrete input. -/
theorem insertInlineImages_appends_at_spacing_multiples_witness :
    ∃ pieces : List String,
      insertInlineImages "a</p>b</p>c" [sampleInlineImage1] =
          String.intercalate ("</p>") pieces ∧
        pieces.length = (jsSplitOn ("</p>") "a</p>b</p>c").length ∧
        ∀ j, j < (jsSplitOn ("</p>") "a</p>b</p>c").length →
          pieces.getD j "" = (jsSplitOn ("</p>") "a</p>b</p>c").getD j "" ++
            strConcat (((List.range [sampleInlineImage1].length).zip
                [sampleInlineImage1]).filterMap
              (fun q =>
                if ((jsSplitOn ("</p>") "a</p>b</p>c").length /
                      ([sampleInlineImage1].length + 1)) * (q.1 + 1) = j
                then some (inlineImageHtml q.2) else none)) :=
  insertInlineImages_appends_at_spacing_multiples "a</p>b</p>c" [sampleInlineImage1]
    (by simp)

/-- On a non-empty variants list `decideLayout` always returns a
decision (the fallback branch is unreachable). -/
theorem decideLayout_returns_some (rules : LayoutRules) (article : Article)
    (images : List Image) (variants : List LayoutVariant) (hne : variants ≠ []) :
    ∃ d, decideLayout rules article images variants = some d := by
  have hds : variants.map
      (fun v => evaluateVariant rules v (analyzeArticle article images) article) ≠ [] := by
    simpa using hne
  obtain ⟨d, rest, hsort, _, _, _, _, _⟩ := sortByScoreDesc_head _ hds
  exact ⟨d, by simp only [decideLayout]; rw [hsort]⟩

/-- Under a non-empty variants list the decision the magazine loop
computes for an article is `decisionFor`. -/
theorem decideLayout_eq_decisionFor (pack : TemplatePack) (allImages : List Image)
    (article : Article) (hvar : pack.variants ≠ []) :
    decideLayout pack.rules article
        (allImages.filter (fun img => img.articleId = article.id)) pack.variants =
      some (decisionFor pack allImages article) := by
  obtain ⟨d, hd⟩ := decideLayout_returns_some pack.rules article
    (allImages.filter (fun img => img.articleId = article.id)) pack.variants hvar
  rw [hd]
  simp [decisionFor, hd]

/-- The magazine loop, started from any accumulator state, appends one
decision, one warning batch and one article block per article, in
input order. -/
theorem magazineStep_foldl (pack : TemplatePack) (allImages : List Image)
    (hvar : pack.variants ≠ []) (articles : List Article) :
    ∀ (ds : List LayoutDecision) (ws : List String) (html : String),
      articles.foldl (magazineStep pack allImages) (some (ds, ws, html)) =
        some (ds ++ articles.map (decisionFor pack allImages),
          ws ++ (articles.map (fun a => (decisionFor pack allImages a).warnings)).flatten,
          html ++ strConcat (articles.map (fun a =>
            articleBlockFor pack allImages a (decisionFor pack allImages a)))) := by
  induction articles with
  | nil =>
    intro ds ws html
    simp [strConcat, String.append_empty]
  | cons a rest ih =>
    intro ds ws html
    rw [List.foldl_cons]
    have hstep : magazineStep pack allImages (some (ds, ws, html)) a =
        some (ds ++ [decisionFor pack allImages a],
          ws ++ (decisionFor pack allImages a).warnings,
          html ++ articleBlockFor pack allImages a (decisionFor pack allImages a)) := by
      simp only [magazineStep, decideLayout_eq_decisionFor pack allImages a hvar]
    rw [hstep, ih]
    simp only [List.map_cons, List.flatten_cons, strConcat, List.append_assoc,
      String.append_assoc, List.cons_append, List.nil_append]

/-- C7: for every issue, article list, image list and template pack
with a non-empty variants list, the composed document contains exactly
one `<article>` block per input article — the accumulated article
markup is the concatenation, in input order, of one wrapper block per
article — and `metadata.layoutDecisions` lists the per-article
decisions in the same input order. -/
theorem generateMagazine_blocks_in_order (pack : TemplatePack) (issue : Issue)
    (articles : List Article) (allImages : List Image) (buildDate : String)
    (formatDateDe : String → String) (hvar : pack.variants ≠ []) :
    ∃ t, generateMagazine pack issue articles allImages buildDate formatDateDe = some t ∧
      t.metadata.layoutDecisions = articles.map (decisionFor pack allImages) ∧
      t.metadata.layoutDecisions.length = articles.length ∧
      t.html = magazineHtml pack issue buildDate formatDateDe
        (generateTableOfContents issue articles)
        (strConcat (articles.map (fun a =>
          articleBlockFor pack allImages a (decisionFor pack allImages a)))) := by
  have hfold := magazineStep_foldl pack allImages hvar articles [] [] ""
  simp only [List.nil_append] at hfold
  have hempty : ("" : String) ++ strConcat (articles.map (fun a =>
      articleBlockFor pack allImages a (decisionFor pack allImages a))) =
      strConcat (articles.map (fun a =>
        articleBlockFor pack allImages a (decisionFor pack allImages a))) :=
    String.empty_append _
  rw [hempty] at hfold
  have hgen : generateMagazine pack issue articles allImages buildDate formatDateDe =
      some { html := magazineHtml pack issue buildDate formatDateDe
               (generateTableOfContents issue articles)
               (strConcat (articles.map (fun a =>
                 articleBlockFor pack allImages a (decisionFor pack allImages a))))
             css := generateMasterCSS pack.name buildDate
             metadata :=
               { pageCount := 2 + (articles.length + 1) / 2 + articles.length
                 layoutDecisions := articles.map (decisionFor pack allImages)
                 warnings := (articles.map (fun a =>
                   (decisionFor pack allImages a).warnings)).flatten } } := by
    simp only [generateMagazine, hfold]
  exact ⟨_, hgen, rfl, by simp, rfl⟩

/-- Witness for C7 at a concrete input. -/
theorem generateMagazine_blocks_in_order_witness :
    ∃ t, generateMagazine samplePack sampleIssue [sampleArticle] []
          "2025-09-01" (fun s => s) = some t ∧
      t.metadata.layoutDecisions = [sampleArticle].map (decisionFor samplePack []) ∧
      t.metadata.layoutDecisions.length = [sampleArticle].length ∧
      t.html = magazineHtml samplePack sampleIssue "2025-09-01" (fun s => s)
        (generateTableOfContents sampleIssue [sampleArticle])
        (strConcat ([sampleArticle].map (fun a =>
          articleBlockFor samplePack [] a (decisionFor samplePack [] a)))) :=
  generateMagazine_blocks_in_order samplePack sampleIssue [sampleArticle] []
    "2025-09-01" (fun s => s) (by simp [samplePack])
